import Mathlib

/-!
Shallow embedding of the todo-backend's authorization and request-lifecycle
layer, translated from the repository's Python sources:

* `core/errors.py`        — error codes and the structured `AppException`
* `core/security.py`      — `create_access_token`, `verify_jwt`
* `api/dependencies.py`   — `get_current_user` (authentication guard)
* `core/authorization.py` — `get_user_task_or_404` (ownership authorizer)
* `api/routes/tasks.py`   — task CRUD + toggle handlers
* `api/routes/auth.py`    — `signup` handler
* `schemas/task.py`       — `TaskCreate` / `TaskUpdate` validation
* `models/user.py`, `models/task.py` — row types

Machine time is modelled as `Nat` (epoch seconds for tokens, an abstract
clock tick for row timestamps); each `datetime.utcnow()` call in the source
corresponds to one explicit clock-value argument, in call order.  The JWT
wire format is modelled abstractly: a token is either well-formed and signed
with some secret, or malformed; `jwt.decode` checks the signature first and
then the `exp` claim, exactly as the `jose` library does.
-/

set_option autoImplicit false

namespace TodoApp

/-- Error codes from `core/errors.py`. -/
def ERROR_MISSING_TOKEN : String := "MISSING_TOKEN"

def ERROR_INVALID_TOKEN : String := "INVALID_TOKEN"

def ERROR_TOKEN_EXPIRED : String := "TOKEN_EXPIRED"

def ERROR_USER_NOT_FOUND : String := "USER_NOT_FOUND"

def ERROR_EMAIL_EXISTS : String := "EMAIL_ALREADY_EXISTS"

def ERROR_TASK_NOT_FOUND : String := "TASK_NOT_FOUND"

def ERROR_FORBIDDEN : String := "FORBIDDEN"

def ERROR_INTERNAL_SERVER : String := "INTERNAL_SERVER_ERROR"

/-- `AppException` from `core/errors.py`: structured error with HTTP status,
machine-readable code and a human-readable message (`details` omitted: every
error raised on the embedded paths uses the default empty list). -/
structure AppException where
  status_code : Nat
  error_code : String
  message : String
deriving DecidableEq, Repr

/-- 401 raised by `get_current_user` when no Authorization header is present. -/
def missingTokenError : AppException :=
  { status_code := 401, error_code := ERROR_MISSING_TOKEN,
    message := "Authentication required. Please sign in." }

/-- 401 raised by `verify_jwt` for malformed/badly-signed tokens or a missing
subject claim. -/
def invalidTokenError : AppException :=
  { status_code := 401, error_code := ERROR_INVALID_TOKEN,
    message := "Invalid authentication token. Please sign in again." }

/-- 401 raised by `verify_jwt` on `ExpiredSignatureError`. -/
def tokenExpiredError : AppException :=
  { status_code := 401, error_code := ERROR_TOKEN_EXPIRED,
    message := "Your session has expired. Please sign in again." }

/-- 404 raised by `get_user_task_or_404` when no task has the given id. -/
def taskNotFoundError (task_id : Nat) : AppException :=
  { status_code := 404, error_code := ERROR_TASK_NOT_FOUND,
    message := "Task with ID " ++ toString task_id ++ " not found" }

/-- 403 raised by `get_user_task_or_404` when the task belongs to another user. -/
def forbiddenError : AppException :=
  { status_code := 403, error_code := ERROR_FORBIDDEN,
    message := "You don\x27t have permission to access this task" }

/-- 400 raised by `signup` when the email is already registered. -/
def emailExistsError : AppException :=
  { status_code := 400, error_code := ERROR_EMAIL_EXISTS,
    message := "An account with this email already exists" }

/-- 500 raised by a task handler's blanket `except Exception` branch. -/
def internalError (msg : String) : AppException :=
  { status_code := 500, error_code := ERROR_INTERNAL_SERVER, message := msg }

/-! ## Token Service (`core/security.py`) -/

/-- Decoded JWT claim set: the `sub`, `exp` and `iat` claims written by
`create_access_token`.  `sub` is optional to model a payload in which the
subject claim is absent (`payload.get("sub")` returning `None`). -/
structure JwtPayload where
  sub : Option String
  exp : Nat
  iat : Nat
deriving DecidableEq, Repr

/-- Abstract JWT wire value: either a well-formed token carrying a payload and
signed with some secret, or a string that does not parse as a JWT at all. -/
inductive Jwt where
  | signed (payload : JwtPayload) (sigSecret : String)
  | malformed (raw : String)
deriving DecidableEq, Repr

/-- Outcome of `jose.jwt.decode`: success, `ExpiredSignatureError`, or a
generic `JWTError` (bad signature or malformed structure). -/
inductive JoseResult where
  | ok (payload : JwtPayload)
  | expired
  | jwtError
deriving DecidableEq, Repr

/-- `jose.jwt.decode(token, secret, algorithms=["HS256"])` evaluated at time
`now`: the signature is verified first; only then is the `exp` claim checked,
raising `ExpiredSignatureError` exactly when `exp < now`. -/
def jwt_decode (token : Jwt) (secret : String) (now : Nat) : JoseResult :=
  match token with
  | .malformed _ => .jwtError
  | .signed payload sigSecret =>
      if sigSecret ≠ secret then .jwtError
      else if payload.exp < now then .expired
      else .ok payload

/-- `create_access_token(user_id)` from `core/security.py`, called at time
`now` with the default 24-hour `expires_delta`: signs a payload with
`sub = user_id`, `exp = now + 24h`, `iat = now` under the process secret. -/
def create_access_token (user_id : String) (now : Nat) (secret : String) : Jwt :=
  Jwt.signed { sub := some user_id, exp := now + 86400, iat := now } secret

/-- `verify_jwt` from `core/security.py`: decode, then require a truthy `sub`
claim (Python `if not user_id` treats both a missing and an empty subject as
falsy); `ExpiredSignatureError` maps to 401 `TOKEN_EXPIRED` and `JWTError` to
401 `INVALID_TOKEN`. -/
def verify_jwt (token : Jwt) (secret : String) (now : Nat) :
    Except AppException JwtPayload :=
  match jwt_decode token secret now with
  | .ok payload =>
      if payload.sub.getD "" = "" then .error invalidTokenError
      else .ok payload
  | .expired => .error tokenExpiredError
  | .jwtError => .error invalidTokenError

/-- `get_current_user` from `api/dependencies.py`: the authentication guard.
`credentials = none` models a request without an Authorization header
(`HTTPBearer(auto_error=False)` yields `None`); otherwise the bearer token is
verified and the `sub` claim returned. -/
def get_current_user (credentials : Option Jwt) (secret : String) (now : Nat) :
    Except AppException String :=
  match credentials with
  | none => .error missingTokenError
  | some token =>
      match verify_jwt token secret now with
      | .ok payload => .ok (payload.sub.getD "")
      | .error e => .error e

/-! ## Data model (`models/task.py`, `models/user.py`) -/

/-- Task row from `models/task.py`: a todo item belonging to one user.
Timestamps are abstract clock ticks. -/
structure Task where
  id : Nat
  user_id : String
  title : String
  description : Option String
  completed : Bool
  created_at : Nat
  updated_at : Nat
deriving DecidableEq, Repr

/-- User row from `models/user.py`. -/
structure User where
  id : String
  email : String
  password_hash : String
  name : Option String
  email_verified : Bool
  created_at : Nat
deriving DecidableEq, Repr

/-- `select(Task).where(Task.id == task_id)` + `scalar_one_or_none()` over the
committed tasks table (primary-key lookup). -/
def findTask (db : List Task) (task_id : Nat) : Option Task :=
  db.find? (fun t => t.id == task_id)

/-- `select(User).where(User.email == email)` + `scalar_one_or_none()`. -/
def findUserByEmail (db : List User) (email : String) : Option User :=
  db.find? (fun u => u.email == email)

/-- Storage-level insert of a user row.  `models/user.py` declares
`email: Field(unique=True)`, so the insert commits only when no row with the
same email exists; otherwise the database raises a unique-constraint
violation (`.error ()`), never silently overwriting. -/
def insertUserUnique (db : List User) (u : User) : Except Unit (List User) :=
  if db.any (fun w => w.email == u.email) then .error ()
  else .ok (db ++ [u])

/-! ## Request schemas (`schemas/task.py`) -/

/-- Python `str.strip()`: remove leading and trailing whitespace.  Implemented
structurally over the character list so that concrete inputs evaluate by
kernel reduction. -/
def strip (s : String) : String :=
  String.mk
    (((s.data.dropWhile Char.isWhitespace).reverse.dropWhile
        Char.isWhitespace).reverse)

/-- The `description_strip` validator body, `return v.strip() if v else None`:
`None` and the empty string are falsy and become `None`; any other string is
stripped (which may itself produce the empty string). -/
def pyStrip (v : Option String) : Option String :=
  match v with
  | none => none
  | some s => if s = "" then none else some (strip s)

/-- Validated body of `POST /tasks` (`TaskCreate`). -/
structure TaskCreate where
  title : String
  description : Option String
deriving DecidableEq, Repr

/-- Validated body of `PUT /tasks/{id}` (`TaskUpdate`). -/
structure TaskUpdate where
  title : Option String
  description : Option String
deriving DecidableEq, Repr

/-- `TaskCreate` validation: `Field` length constraints, then the
`title_not_empty` validator (reject whitespace-only, return `v.strip()`) and
the `description_strip` validator. -/
def validateTaskCreate (title : String) (description : Option String) :
    Option TaskCreate :=
  if title.length < 1 ∨ 200 < title.length then none
  else if description.any (fun v => 2000 < v.length) then none
  else if strip title = "" then none
  else some { title := strip title, description := pyStrip description }

/-- `TaskUpdate` validation.  The third argument models a `user_id` key in the
raw request body: `TaskUpdate` declares no such field, so pydantic discards it
and the validated value cannot depend on it. -/
def validateTaskUpdate (title description _user_id : Option String) :
    Option TaskUpdate :=
  if title.any (fun v => v.length < 1 || 200 < v.length) then none
  else if description.any (fun v => 2000 < v.length) then none
  else if title.any (fun v => strip v == "") then none
  else some { title := pyStrip title, description := pyStrip description }

/-! ## Ownership authorizer (`core/authorization.py`) -/

/-- Storage operation performed by a handler, recorded in call order.
`fetchTask` records the `for_update` flag of the `SELECT`: `true` means the
statement carried `with_for_update()` (exclusive row lock). -/
inductive DbOp where
  | fetchTask (task_id : Nat) (for_update : Bool)
  | commit
  | rollback
deriving DecidableEq, Repr

/-- `get_user_task_or_404` from `core/authorization.py`: select the task by id
(with `with_for_update()` when `for_update` is set), fail 404 `TASK_NOT_FOUND`
when absent, then fail 403 `FORBIDDEN` when the owner differs, else return the
task.  Also returns the `DbOp` describing the fetch it performed. -/
def get_user_task_or_404 (task_id : Nat) (user_id : String) (db : List Task)
    (for_update : Bool) : Except AppException Task × DbOp :=
  let op := DbOp.fetchTask task_id for_update
  match findTask db task_id with
  | none => (.error (taskNotFoundError task_id), op)
  | some task =>
      if task.user_id ≠ user_id then (.error forbiddenError, op)
      else (.ok task, op)

/-! ## Task handlers (`api/routes/tasks.py`)

Each handler runs after the authentication guard resolved `current_user`.
`commitOk` models whether the storage layer's `commit` succeeds; when it does
not, the handler's `except Exception` branch rolls the transaction back and
raises a 500.  The returned `db` is the committed store after the request. -/

/-- Result of one task-handler invocation: the HTTP-level outcome, the
committed store afterwards, and the storage operations performed. -/
structure HandlerResult (α : Type) where
  response : Except AppException α
  db : List Task
  ops : List DbOp

/-- `create_task` (`POST /tasks`): builds a row owned by `current_user` with
`completed=False`; `created_at` and `updated_at` come from two separate
`datetime.utcnow()` calls, modelled by the clock values `t_created` and
`t_updated` in call order.  `assignedId` is the storage-assigned primary key. -/
def create_task (current_user : String) (task_data : TaskCreate)
    (assignedId : Nat) (t_created t_updated : Nat) (commitOk : Bool)
    (db : List Task) : HandlerResult Task :=
  let task : Task :=
    { id := assignedId, user_id := current_user, title := task_data.title,
      description := task_data.description, completed := false,
      created_at := t_created, updated_at := t_updated }
  if commitOk then ⟨.ok task, db ++ [task], [.commit]⟩
  else ⟨.error (internalError "An unexpected error occurred while creating the task"),
        db, [.rollback]⟩

/-- `get_task` (`GET /tasks/{id}`): ownership-checked read, no lock, no write. -/
def get_task (task_id : Nat) (current_user : String) (db : List Task) :
    HandlerResult Task :=
  match get_user_task_or_404 task_id current_user db false with
  | (.ok task, op) => ⟨.ok task, db, [op]⟩
  | (.error e, op) => ⟨.error e, db, [op]⟩

/-- `update_task` (`PUT /tasks/{id}`): fetches through `get_user_task_or_404`
with the default `for_update=False`, applies `title` and `description` only
when provided (`user_id` is never taken from the request), refreshes
`updated_at` from the clock, and commits. -/
def update_task (task_id : Nat) (task_data : TaskUpdate) (current_user : String)
    (t_now : Nat) (commitOk : Bool) (db : List Task) : HandlerResult Task :=
  match get_user_task_or_404 task_id current_user db false with
  | (.error e, op) => ⟨.error e, db, [op]⟩
  | (.ok task, op) =>
      let task1 := match task_data.title with
        | some v => { task with title := v }
        | none => task
      let task2 := match task_data.description with
        | some v => { task1 with description := some v }
        | none => task1
      let task3 := { task2 with updated_at := t_now }
      if commitOk then
        ⟨.ok task3, db.map (fun x => if x.id == task_id then task3 else x),
         [op, .commit]⟩
      else
        ⟨.error (internalError "An unexpected error occurred while updating the task"),
         db, [op, .rollback]⟩

/-- `delete_task` (`DELETE /tasks/{id}`): ownership-checked, unlocked fetch,
then row deletion and commit. -/
def delete_task (task_id : Nat) (current_user : String) (commitOk : Bool)
    (db : List Task) : HandlerResult Unit :=
  match get_user_task_or_404 task_id current_user db false with
  | (.error e, op) => ⟨.error e, db, [op]⟩
  | (.ok _, op) =>
      if commitOk then
        ⟨.ok (), db.filter (fun x => x.id != task_id), [op, .commit]⟩
      else
        ⟨.error (internalError "An unexpected error occurred while deleting the task"),
         db, [op, .rollback]⟩

/-- `toggle_task_completion` (`PATCH /tasks/{id}/complete`): fetches through
`get_user_task_or_404` with `for_update=True` (`SELECT ... FOR UPDATE`),
negates `completed`, refreshes `updated_at`, commits. -/
def toggle_task_completion (task_id : Nat) (current_user : String)
    (t_now : Nat) (commitOk : Bool) (db : List Task) : HandlerResult Task :=
  match get_user_task_or_404 task_id current_user db true with
  | (.error e, op) => ⟨.error e, db, [op]⟩
  | (.ok task, op) =>
      let task1 := { task with completed := !task.completed, updated_at := t_now }
      if commitOk then
        ⟨.ok task1, db.map (fun x => if x.id == task_id then task1 else x),
         [op, .commit]⟩
      else
        ⟨.error (internalError "An unexpected error occurred while toggling task completion"),
         db, [op, .rollback]⟩

/-! ## Auth handlers (`api/routes/auth.py`) -/

/-- Body of `POST /auth/signup` (`SignupRequest`). -/
structure SignupRequest where
  email : String
  password : String
  name : Option String
deriving DecidableEq, Repr

/-- User profile as serialized in auth responses (`UserResponse`). -/
structure UserResponse where
  id : String
  email : String
  name : Option String
  email_verified : Bool
  created_at : Nat
deriving DecidableEq, Repr

/-- `AuthResponse`: token plus profile. -/
structure AuthResponse where
  access_token : Jwt
  token_type : String
  user : UserResponse
deriving DecidableEq, Repr

/-- `hash_password` from `core/security.py`, an opaque bcrypt digest
capability; modelled as an injective tagging of the input. -/
def hash_password (password : String) : String :=
  "bcrypt$" ++ password

/-- An exception that is not an `AppException` escaping a handler (the app
registers handlers only for `AppException` and validation errors, so e.g. an
`IntegrityError` from `commit` surfaces as the framework's generic 500). -/
def unhandledServerError : AppException :=
  { status_code := 500, error_code := ERROR_INTERNAL_SERVER,
    message := "Internal Server Error" }

/-- `signup` from `api/routes/auth.py`, one sequential request: look the email
up; if a row exists fail 400 `EMAIL_ALREADY_EXISTS`; otherwise hash the
password, build the user row (`newId` models the `uuid4` default, `now` the
`created_at` clock read) and commit the insert, whose unique email constraint
can only fire if another request inserted the email concurrently (that error
is uncaught in the handler). -/
def signup (request : SignupRequest) (newId : String) (now : Nat)
    (secret : String) (db : List User) :
    Except AppException AuthResponse × List User :=
  match findUserByEmail db request.email with
  | some _ => (.error emailExistsError, db)
  | none =>
      let hashed := hash_password request.password
      let new_user : User :=
        { id := newId, email := request.email, password_hash := hashed,
          name := request.name, email_verified := false, created_at := now }
      match insertUserUnique db new_user with
      | .error _ => (.error unhandledServerError, db)
      | .ok db2 =>
          let access_token := create_access_token new_user.id now secret
          (.ok { access_token := access_token, token_type := "bearer",
                 user := { id := new_user.id, email := new_user.email,
                           name := new_user.name,
                           email_verified := new_user.email_verified,
                           created_at := new_user.created_at } }, db2)

/-! ## Two concurrent signups with the same email

The handler's existence check and its insert+commit are separate storage
round-trips, so two concurrent signups interleave these two steps in any
order.  The store-level unique constraint on `email` still arbitrates the
inserts.  Outcomes are tagged: the loser of a check/insert race fails with a
constraint violation rather than the handler's own 400. -/

/-- Per-request outcome of a racing signup. -/
inductive SignupOutcome where
  | success
  | duplicateEmail
  | constraintViolation
deriving DecidableEq, Repr

/-- One in-flight signup: whether its existence check ran (and what it saw),
and its final outcome once finished. -/
structure SignupProc where
  checked : Option Bool
  outcome : Option SignupOutcome
deriving DecidableEq, Repr

/-- Shared store plus the two in-flight signup requests. -/
structure RaceState where
  store : List User
  p1 : SignupProc
  p2 : SignupProc
deriving DecidableEq, Repr

/-- Advance one signup request (inserting user row `u`) by one storage step:
first the existence check, then the branch on its result — 400 if a row was
seen, otherwise the constrained insert+commit. -/
def stepSignup (u : User) (pr : SignupProc) (store : List User) :
    SignupProc × List User :=
  match pr.checked, pr.outcome with
  | none, _ =>
      ({ pr with checked := some (findUserByEmail store u.email).isSome }, store)
  | some true, none =>
      ({ pr with outcome := some .duplicateEmail }, store)
  | some false, none =>
      match insertUserUnique store u with
      | .ok store2 => ({ pr with outcome := some .success }, store2)
      | .error _ => ({ pr with outcome := some .constraintViolation }, store)
  | some _, some _ => (pr, store)

/-- Run a schedule: `true` advances request 1 (inserting `u1`), `false`
advances request 2 (inserting `u2`). -/
def runRace (u1 u2 : User) : List Bool → RaceState → RaceState
  | [], st => st
  | b :: rest, st =>
      if b then
        let (p, s) := stepSignup u1 st.p1 st.store
        runRace u1 u2 rest { store := s, p1 := p, p2 := st.p2 }
      else
        let (p, s) := stepSignup u2 st.p2 st.store
        runRace u1 u2 rest { store := s, p1 := st.p1, p2 := p }

/-- Race two signups from scratch over an initial store. -/
def raceOutcome (u1 u2 : User) (sched : List Bool) (store : List User) :
    RaceState :=
  runRace u1 u2 sched
    { store := store, p1 := { checked := none, outcome := none },
      p2 := { checked := none, outcome := none } }

/-- The six interleavings of two two-step requests. -/
def raceSchedules : List (List Bool) :=
  [[true, true, false, false], [true, false, true, false],
   [true, false, false, true], [false, true, true, false],
   [false, true, false, true], [false, false, true, true]]

/-- Did this request commit a row? -/
def succeeded (pr : SignupProc) : Bool :=
  pr.outcome == some SignupOutcome.success

/-! ## Guard behaviour written from the amended claim wording

`authGuardSpecOrdered` is not a translation of the source; it restates the
amended guard contract (checks applied in precedence order: presence, then
signature/structure, then expiry, then subject claim) to be compared with
`get_current_user` by a refinement theorem. -/

/-- Amended authentication-guard contract: `MISSING_TOKEN` without a
credential; `INVALID_TOKEN` when the token is malformed or its signature does
not validate; otherwise `TOKEN_EXPIRED` when the expiry is in the past;
otherwise `INVALID_TOKEN` when the subject claim is absent or empty; otherwise
the subject. -/
def authGuardSpecOrdered (credentials : Option Jwt) (secret : String)
    (now : Nat) : Except AppException String :=
  match credentials with
  | none => .error missingTokenError
  | some (.malformed _) => .error invalidTokenError
  | some (.signed payload sigSecret) =>
      if sigSecret ≠ secret then .error invalidTokenError
      else if payload.exp < now then .error tokenExpiredError
      else if payload.sub.getD "" = "" then .error invalidTokenError
      else .ok (payload.sub.getD "")

/-- Per-input content of the original claim about the guard: `TOKEN_EXPIRED`
exactly when the embedded expiry is in the past, `INVALID_TOKEN` exactly when
the signature does not validate or the subject claim is absent or empty
(stated for a structurally well-formed token, where "the embedded expiry" is
meaningful). -/
def guardClaimAt (payload : JwtPayload) (sigSecret secret : String)
    (now : Nat) : Prop :=
  (get_current_user (some (.signed payload sigSecret)) secret now
      = .error tokenExpiredError ↔ payload.exp < now) ∧
  (get_current_user (some (.signed payload sigSecret)) secret now
      = .error invalidTokenError ↔
    (sigSecret ≠ secret ∨ payload.sub.getD "" = ""))

/-! ## Helper lemmas -/

theorem gut_not_found (task_id : Nat) (user_id : String) (db : List Task)
    (fu : Bool) (h : findTask db task_id = none) :
    get_user_task_or_404 task_id user_id db fu
      = (.error (taskNotFoundError task_id), .fetchTask task_id fu) := by
  simp [get_user_task_or_404, h]

theorem gut_forbidden (task_id : Nat) (user_id : String) (db : List Task)
    (fu : Bool) (task : Task) (h : findTask db task_id = some task)
    (hne : task.user_id ≠ user_id) :
    get_user_task_or_404 task_id user_id db fu
      = (.error forbiddenError, .fetchTask task_id fu) := by
  simp [get_user_task_or_404, h, hne]

theorem gut_owned (task_id : Nat) (user_id : String) (db : List Task)
    (fu : Bool) (task : Task) (h : findTask db task_id = some task)
    (heq : task.user_id = user_id) :
    get_user_task_or_404 task_id user_id db fu
      = (.ok task, .fetchTask task_id fu) := by
  simp [get_user_task_or_404, h, heq]

theorem findTask_append (db1 db2 : List Task) (T : Nat) :
    findTask (db1 ++ db2) T = (findTask db1 T).or (findTask db2 T) := by
  simp [findTask, List.find?_append]

theorem findUserByEmail_append (db1 db2 : List User) (e : String) :
    findUserByEmail (db1 ++ db2) e
      = (findUserByEmail db1 e).or (findUserByEmail db2 e) := by
  simp [findUserByEmail, List.find?_append]

theorem findUserByEmail_eq_none_iff (db : List User) (e : String) :
    findUserByEmail db e = none ↔ db.any (fun w => w.email == e) = false := by
  simp only [findUserByEmail, List.find?_eq_none, List.any_eq_false]

/-! ## Claim theorems -/

/-- C1: for every authenticated subject `B` and task id `T`, each of get,
update, delete and toggle fails 404 `TASK_NOT_FOUND` when no task with id `T`
exists (the existence check runs before the ownership check, so this holds
for every caller), fails 403 `FORBIDDEN` when the task exists but is owned by
someone else, and proceeds — returning the task for the read — exactly when
the task exists and is owned by `B`. -/
theorem task_ops_existence_then_ownership (db : List Task) (B : String)
    (T : Nat) (u : TaskUpdate) (t : Nat) :
    (taskNotFoundError T).status_code = 404 ∧ forbiddenError.status_code = 403 ∧
    (findTask db T = none →
      (get_task T B db).response = .error (taskNotFoundError T) ∧
      (update_task T u B t true db).response = .error (taskNotFoundError T) ∧
      (delete_task T B true db).response = .error (taskNotFoundError T) ∧
      (toggle_task_completion T B t true db).response = .error (taskNotFoundError T)) ∧
    (∀ task, findTask db T = some task → task.user_id ≠ B →
      (get_task T B db).response = .error forbiddenError ∧
      (update_task T u B t true db).response = .error forbiddenError ∧
      (delete_task T B true db).response = .error forbiddenError ∧
      (toggle_task_completion T B t true db).response = .error forbiddenError) ∧
    (∀ task, findTask db T = some task → task.user_id = B →
      (get_task T B db).response = .ok task ∧
      (update_task T u B t true db).response.isOk = true ∧
      (delete_task T B true db).response.isOk = true ∧
      (toggle_task_completion T B t true db).response.isOk = true) := by
  refine ⟨rfl, rfl, ?_, ?_, ?_⟩
  · intro h
    simp [get_task, update_task, delete_task, toggle_task_completion,
      gut_not_found _ _ _ _ h]
  · intro task h hne
    simp [get_task, update_task, delete_task, toggle_task_completion,
      gut_forbidden _ _ _ _ _ h hne]
  · intro task h heq
    simp [get_task, update_task, delete_task, toggle_task_completion,
      gut_owned _ _ _ _ _ h heq, Except.isOk, Except.toBool]

/-- Witness for C1 at concrete inputs: a missing id yields 404 for every
caller, a foreign owner yields 403, the owner reads the task back. -/
theorem task_ops_existence_then_ownership_witness :
    (get_task 7 "bob" []).response = .error (taskNotFoundError 7) ∧
    (get_task 1 "bob"
        [{ id := 1, user_id := "alice", title := "T", description := none,
           completed := false, created_at := 0, updated_at := 0 }]).response
      = .error forbiddenError ∧
    (get_task 1 "alice"
        [{ id := 1, user_id := "alice", title := "T", description := none,
           completed := false, created_at := 0, updated_at := 0 }]).response
      = .ok { id := 1, user_id := "alice", title := "T", description := none,
              completed := false, created_at := 0, updated_at := 0 } := by
  refine ⟨?_, ?_, ?_⟩
  · exact ((task_ops_existence_then_ownership [] "bob" 7
      { title := none, description := none } 0).2.2.1 rfl).1
  · exact ((task_ops_existence_then_ownership
      [{ id := 1, user_id := "alice", title := "T", description := none,
         completed := false, created_at := 0, updated_at := 0 }] "bob" 1
      { title := none, description := none } 0).2.2.2.1
      { id := 1, user_id := "alice", title := "T", description := none,
        completed := false, created_at := 0, updated_at := 0 } rfl (by decide)).1
  · exact ((task_ops_existence_then_ownership
      [{ id := 1, user_id := "alice", title := "T", description := none,
         completed := false, created_at := 0, updated_at := 0 }] "alice" 1
      { title := none, description := none } 0).2.2.2.2
      { id := 1, user_id := "alice", title := "T", description := none,
        completed := false, created_at := 0, updated_at := 0 } rfl rfl).1

/-- C6: for every mutating task handler (create, update, delete, toggle) and
every input — including the 403/404 failures raised by the ownership
authorizer after the fetch, and a failing storage commit whose `except
Exception` branch rolls back — an error outcome leaves the committed store
exactly as it was before the request. -/
theorem mutating_handlers_state_unchanged_on_error (db : List Task)
    (B : String) (T aid : Nat) (c : TaskCreate) (u : TaskUpdate)
    (t1 t2 t : Nat) (commitOk : Bool) :
    ((create_task B c aid t1 t2 commitOk db).response.isOk = false →
      (create_task B c aid t1 t2 commitOk db).db = db) ∧
    ((update_task T u B t commitOk db).response.isOk = false →
      (update_task T u B t commitOk db).db = db) ∧
    ((delete_task T B commitOk db).response.isOk = false →
      (delete_task T B commitOk db).db = db) ∧
    ((toggle_task_completion T B t commitOk db).response.isOk = false →
      (toggle_task_completion T B t commitOk db).db = db) := by
  refine ⟨?_, ?_, ?_, ?_⟩
  · cases commitOk <;> simp [create_task, Except.isOk, Except.toBool]
  all_goals {
    rcases hft : findTask db T with _ | task
    · simp [update_task, delete_task, toggle_task_completion,
        gut_not_found _ _ _ _ hft]
    · by_cases ho : task.user_id = B
      · cases commitOk <;>
          simp [update_task, delete_task, toggle_task_completion,
            gut_owned _ _ _ _ _ hft ho, Except.isOk, Except.toBool]
      · simp [update_task, delete_task, toggle_task_completion,
          gut_forbidden _ _ _ _ _ hft ho] }

/-- Witness for C6 at concrete inputs: a 404 on update and a failed commit on
toggle both leave the store unchanged. -/
theorem mutating_handlers_state_unchanged_on_error_witness :
    (update_task 7 { title := none, description := none } "alice" 3 true []).db
      = [] ∧
    (toggle_task_completion 1 "alice" 3 false
        [{ id := 1, user_id := "alice", title := "T", description := none,
           completed := false, created_at := 0, updated_at := 0 }]).db
      = [{ id := 1, user_id := "alice", title := "T", description := none,
           completed := false, created_at := 0, updated_at := 0 }] := by
  constructor
  · exact (mutating_handlers_state_unchanged_on_error [] "alice" 7 0
      { title := "x", description := none }
      { title := none, description := none } 0 0 3 true).2.1 (by decide)
  · exact (mutating_handlers_state_unchanged_on_error
      [{ id := 1, user_id := "alice", title := "T", description := none,
         completed := false, created_at := 0, updated_at := 0 }] "alice" 1 0
      { title := "x", description := none }
      { title := none, description := none } 0 0 3 false).2.2.2 (by decide)

/-- C2 counterexample: a successful `PUT /tasks/{id}` — a read-modify-write
sequence that fetches the row and writes it back — performs its fetch with
the lock flag `false` (the call to `get_user_task_or_404` omits
`for_update=True`), so the system does perform an unlocked fetch as part of a
read-modify-write sequence. -/
theorem update_unlocked_fetch_cex :
    (update_task 1 { title := some "New", description := none } "u1" 5 true
        [{ id := 1, user_id := "u1", title := "T", description := none,
           completed := false, created_at := 0, updated_at := 0 }]).response.isOk
      = true ∧
    (update_task 1 { title := some "New", description := none } "u1" 5 true
        [{ id := 1, user_id := "u1", title := "T", description := none,
           completed := false, created_at := 0, updated_at := 0 }]).ops
      = [DbOp.fetchTask 1 false, DbOp.commit] := by
  constructor <;> rfl

/-- C2 (amended): only the completion toggle performs its fetch with the lock
flag set to `true`; the partial update, although also a read-modify-write
sequence, performs its fetch with the lock flag `false`. -/
theorem toggle_locked_update_unlocked (db : List Task) (T : Nat) (B : String)
    (u : TaskUpdate) (t : Nat) (commitOk : Bool) :
    (toggle_task_completion T B t commitOk db).ops.head?
      = some (DbOp.fetchTask T true) ∧
    (update_task T u B t commitOk db).ops.head?
      = some (DbOp.fetchTask T false) := by
  constructor <;> {
    rcases hft : findTask db T with _ | task
    · simp [update_task, toggle_task_completion, gut_not_found _ _ _ _ hft]
    · by_cases ho : task.user_id = B
      · cases commitOk <;>
          simp [update_task, toggle_task_completion,
            gut_owned _ _ _ _ _ hft ho]
      · simp [update_task, toggle_task_completion,
          gut_forbidden _ _ _ _ _ hft ho] }

/-- C3 counterexample: for the subject id `""`, a freshly issued token —
verified immediately, well before its expiry instant — does not verify to its
subject: `verify_jwt` rejects it with `INVALID_TOKEN`, because the handler
treats a falsy `sub` claim (`if not user_id`) as invalid. -/
theorem token_empty_subject_cex :
    (0 : Nat) < 0 + 86400 ∧
    verify_jwt (create_access_token "" 0 "secret0") "secret0" 0
      = .error invalidTokenError := by
  exact ⟨by decide, rfl⟩

/-- C3 (amended): for every nonempty subject id `U`, a token issued for `U`
with the process secret verifies to subject `U` at any time before its expiry
instant, and at any time after the expiry instant verification fails with
`TOKEN_EXPIRED` (never `INVALID_TOKEN`). -/
theorem token_verify_until_expiry (U : String) (t0 t : Nat) (secret : String)
    (hU : U ≠ "") :
    (t < t0 + 86400 →
      verify_jwt (create_access_token U t0 secret) secret t
        = .ok { sub := some U, exp := t0 + 86400, iat := t0 }) ∧
    (t0 + 86400 < t →
      verify_jwt (create_access_token U t0 secret) secret t
        = .error tokenExpiredError) := by
  constructor
  · intro hlt
    have hnl : ¬ (t0 + 86400 < t) := by omega
    simp [verify_jwt, create_access_token, jwt_decode, hnl, hU]
  · intro hgt
    simp [verify_jwt, create_access_token, jwt_decode, hgt]

/-- Witness for C3 (amended): a token for subject `u1` issued at time 0
verifies at time 10 and is expired at time 86401. -/
theorem token_verify_until_expiry_witness :
    verify_jwt (create_access_token "u1" 0 "s") "s" 10
      = .ok { sub := some "u1", exp := 86400, iat := 0 } ∧
    verify_jwt (create_access_token "u1" 0 "s") "s" 86401
      = .error tokenExpiredError := by
  constructor
  · exact (token_verify_until_expiry "u1" 0 10 "s" (by decide)).1 (by decide)
  · exact (token_verify_until_expiry "u1" 0 86401 "s" (by decide)).2 (by decide)

/-- C4 counterexample: a structurally well-formed token, signed with the
correct secret, whose expiry is in the past and whose subject claim is
absent.  The claim requires `INVALID_TOKEN` exactly when the subject claim is
absent or empty, and `TOKEN_EXPIRED` exactly when the expiry is in the past —
but the guard returns `TOKEN_EXPIRED` here (the expiry check runs before the
subject check), so the two "exactly when" conditions cannot both hold. -/
theorem guard_claim_cex :
    ¬ guardClaimAt { sub := none, exp := 0, iat := 0 } "s" "s" 10 := by
  intro h
  have h1 := h.1.mpr (by decide)
  have h2 := h.2.mpr (Or.inr rfl)
  rw [h1] at h2
  exact absurd (congrArg AppException.error_code (Except.error.inj h2)) (by decide)

/-- C4 (amended): the guard applies its checks in precedence order — no
credential yields `MISSING_TOKEN` (401); a malformed token or one whose
signature does not validate yields `INVALID_TOKEN` (401); otherwise an expiry
in the past yields `TOKEN_EXPIRED` (401); otherwise an absent or empty
subject claim yields `INVALID_TOKEN` (401); otherwise the subject claim is
returned.  `get_current_user` coincides with this contract on every input. -/
theorem guard_matches_ordered_contract (credentials : Option Jwt)
    (secret : String) (now : Nat) :
    get_current_user credentials secret now
      = authGuardSpecOrdered credentials secret now := by
  rcases credentials with _ | tok
  · rfl
  rcases tok with ⟨payload, sigSecret⟩ | raw
  · by_cases h1 : sigSecret ≠ secret
    · simp [get_current_user, verify_jwt, jwt_decode, authGuardSpecOrdered, h1]
    · by_cases h2 : payload.exp < now
      · simp [get_current_user, verify_jwt, jwt_decode, authGuardSpecOrdered,
          h1, h2]
      · by_cases h3 : payload.sub.getD "" = ""
        all_goals simp [get_current_user, verify_jwt, jwt_decode,
          authGuardSpecOrdered, h1, h2, h3]
  · rfl

/-- C7: for every successful `PUT /tasks/{id}` by the owner, only the
validated body fields (`title` and/or `description`) change, each to its
submitted value; a field not submitted keeps its prior value; the task's
`id`, owner field, `completed` flag and `created_at` are unchanged — and a
`user_id` value in the request body cannot influence the validated input at
all — while `updated_at` is refreshed; no other stored row changes. -/
theorem update_partial_frame (db : List Task) (T : Nat) (B : String)
    (rawTitle rawDesc rawOwner : Option String) (u : TaskUpdate) (t : Nat)
    (task : Task) (hv : validateTaskUpdate rawTitle rawDesc rawOwner = some u)
    (hf : findTask db T = some task) (hb : task.user_id = B) :
    validateTaskUpdate rawTitle rawDesc rawOwner
      = validateTaskUpdate rawTitle rawDesc none ∧
    ∃ r, (update_task T u B t true db).response = .ok r ∧
      r.id = task.id ∧ r.user_id = task.user_id ∧
      r.completed = task.completed ∧ r.created_at = task.created_at ∧
      r.updated_at = t ∧
      r.title = (match u.title with | some v => v | none => task.title) ∧
      r.description
        = (match u.description with | some v => some v | none => task.description) ∧
      (update_task T u B t true db).db
        = db.map (fun x => if x.id == T then r else x) := by
  refine ⟨rfl, ?_⟩
  rcases u with ⟨ut, ud⟩
  cases ut <;> cases ud <;>
    simp [update_task, gut_owned _ _ _ _ _ hf hb]

/-- Witness for C7: updating only the title leaves the description, owner,
completion flag and `created_at` as they were. -/
theorem update_partial_frame_witness :
    ∃ r, (update_task 1 { title := some "New", description := none } "alice" 9
        true
        [{ id := 1, user_id := "alice", title := "Old", description := some "d",
           completed := true, created_at := 2, updated_at := 3 }]).response
      = .ok r ∧
      r.id = 1 ∧ r.user_id = "alice" ∧ r.completed = true ∧ r.created_at = 2 ∧
      r.updated_at = 9 ∧ r.title = "New" ∧ r.description = some "d" := by
  obtain ⟨-, r, h1, h2, h3, h4, h5, h6, h7, h8, -⟩ :=
    update_partial_frame
      [{ id := 1, user_id := "alice", title := "Old", description := some "d",
         completed := true, created_at := 2, updated_at := 3 }] 1 "alice"
      (some "New") none (some "mallory")
      { title := some "New", description := none } 9
      { id := 1, user_id := "alice", title := "Old", description := some "d",
        completed := true, created_at := 2, updated_at := 3 }
      (by decide) rfl rfl
  exact ⟨r, h1, h2, h3, h4, h5, h6, h7, h8⟩

/-- C9: a successful `PATCH /tasks/{id}/complete` by the owner returns the
task with `completed` negated, all other user-visible fields unchanged except
`updated_at`, which is refreshed — and the fetch it performs is locked. -/
theorem toggle_flips_completed (db : List Task) (T : Nat) (B : String)
    (t : Nat) (task : Task) (hf : findTask db T = some task)
    (hb : task.user_id = B) :
    ∃ r, (toggle_task_completion T B t true db).response = .ok r ∧
      r.completed = !task.completed ∧ r.id = task.id ∧
      r.user_id = task.user_id ∧ r.title = task.title ∧
      r.description = task.description ∧ r.created_at = task.created_at ∧
      r.updated_at = t ∧
      (toggle_task_completion T B t true db).ops
        = [DbOp.fetchTask T true, DbOp.commit] := by
  simp [toggle_task_completion, gut_owned _ _ _ _ _ hf hb]

/-- Witness for C9: toggling a completed task of its owner yields
`completed = false` and a locked fetch. -/
theorem toggle_flips_completed_witness :
    ∃ r, (toggle_task_completion 1 "alice" 9 true
        [{ id := 1, user_id := "alice", title := "T", description := none,
           completed := true, created_at := 2, updated_at := 3 }]).response
      = .ok r ∧ r.completed = false ∧ r.updated_at = 9 := by
  obtain ⟨r, h1, h2, -, -, -, -, -, h8, -⟩ :=
    toggle_flips_completed
      [{ id := 1, user_id := "alice", title := "T", description := none,
         completed := true, created_at := 2, updated_at := 3 }] 1 "alice" 9
      { id := 1, user_id := "alice", title := "T", description := none,
        completed := true, created_at := 2, updated_at := 3 } rfl rfl
  exact ⟨r, h1, h2, h8⟩

/-- C8 counterexample: `create_task` reads the clock twice — once for
`created_at` and once for `updated_at` (`datetime.utcnow()` is called
separately for each field) — so a valid creation in which the clock advanced
between the two reads succeeds with `created_at ≠ updated_at`, refuting the
unconditional `created_at = updated_at` part of the claim. -/
theorem create_timestamps_cex :
    validateTaskCreate "Buy milk" none
      = some { title := "Buy milk", description := none } ∧
    (create_task "u1" { title := "Buy milk", description := none } 1 0 1 true
        []).response
      = .ok { id := 1, user_id := "u1", title := "Buy milk",
              description := none, completed := false, created_at := 0,
              updated_at := 1 } ∧
    (0 : Nat) ≠ 1 := by
  exact ⟨by decide, rfl, by decide⟩

/-- C8 (amended): for every valid task-creation request, creating the task
and immediately fetching it by its assigned id as the same owner returns a
task whose `title` and `description` equal the stripped submitted values and
whose `completed` flag is `false`; `created_at` and `updated_at` are set from
two successive clock reads at creation and are equal whenever the clock did
not advance between them. -/
theorem create_get_roundtrip (cu rawTitle : String) (rawDesc : Option String)
    (c : TaskCreate) (aid t1 t2 : Nat) (db : List Task)
    (hv : validateTaskCreate rawTitle rawDesc = some c)
    (hfresh : findTask db aid = none) (ht : t1 = t2) :
    ∃ r, (create_task cu c aid t1 t2 true db).response = .ok r ∧
      (get_task aid cu (create_task cu c aid t1 t2 true db).db).response
        = .ok r ∧
      r.title = strip rawTitle ∧ r.description = pyStrip rawDesc ∧
      r.completed = false ∧ r.created_at = r.updated_at ∧ r.user_id = cu := by
  have hc : c.title = strip rawTitle ∧ c.description = pyStrip rawDesc := by
    unfold validateTaskCreate at hv
    split at hv
    · exact absurd hv (by simp)
    · split at hv
      · exact absurd hv (by simp)
      · split at hv
        · exact absurd hv (by simp)
        · obtain rfl := Option.some.inj hv
          exact ⟨rfl, rfl⟩
  refine ⟨_, rfl, ?_, hc.1, hc.2, rfl, by rw [ht], rfl⟩
  have hfind : findTask (create_task cu c aid t1 t2 true db).db aid
      = some { id := aid, user_id := cu, title := c.title,
               description := c.description, completed := false,
               created_at := t1, updated_at := t2 } := by
    have hdb : (create_task cu c aid t1 t2 true db).db
        = db ++ [{ id := aid, user_id := cu, title := c.title,
                   description := c.description, completed := false,
                   created_at := t1, updated_at := t2 }] := rfl
    rw [hdb, findTask_append, hfresh]
    simp [findTask, List.find?]
  simp [get_task, gut_owned _ _ _ _ _ hfind rfl]

/-- Witness for C8 (amended): creating "Buy milk " and fetching it back
returns the stripped title with equal timestamps. -/
theorem create_get_roundtrip_witness :
    ∃ r, (create_task "u1" { title := "Buy milk", description := none } 1 4 4
        true []).response = .ok r ∧
      r.title = "Buy milk" ∧ r.completed = false ∧
      r.created_at = r.updated_at := by
  obtain ⟨r, h1, -, h3, -, h5, h6, -⟩ :=
    create_get_roundtrip "u1" "Buy milk " none
      { title := "Buy milk", description := none } 1 4 4 [] (by decide) rfl rfl
  exact ⟨r, h1, by rw [h3]; decide, h5, h6⟩

/-- C10 counterexample: a `PUT /tasks/{id}` whose `description` is the
whitespace-only string `" "` does not leave the stored description
unchanged: the schema's `v.strip() if v else None` normalizes `" "` (truthy)
to `""` — not to `None` — and the handler's `is not None` test then applies
it, clearing the stored description to the empty string. -/
theorem whitespace_description_clears_cex :
    validateTaskUpdate none (some " ") none
      = some { title := none, description := some "" } ∧
    (update_task 1 { title := none, description := some "" } "u1" 5 true
        [{ id := 1, user_id := "u1", title := "T", description := some "keep",
           completed := false, created_at := 0, updated_at := 0 }]).response
      = .ok { id := 1, user_id := "u1", title := "T", description := some "",
              completed := false, created_at := 0, updated_at := 5 } ∧
    (some "" : Option String) ≠ some "keep" := by
  exact ⟨by decide, rfl, by decide⟩

/-- C10 (amended): a `description` submitted as the empty string is
normalized to `None` by the schema and the handler leaves the stored
description unchanged; a non-empty whitespace-only `description` is stripped
to the empty string and a successful update by the owner sets the stored
description to `some ""`. -/
theorem update_description_empty_vs_whitespace (db : List Task) (T : Nat)
    (B : String) (t : Nat) (task : Task) (s : String)
    (hf : findTask db T = some task) (hb : task.user_id = B) :
    (validateTaskUpdate none (some "") none
        = some { title := none, description := none } ∧
      ∃ r, (update_task T { title := none, description := none } B t true
          db).response = .ok r ∧ r.description = task.description) ∧
    (s ≠ "" → strip s = "" → s.length ≤ 2000 →
      validateTaskUpdate none (some s) none
        = some { title := none, description := some "" } ∧
      ∃ r, (update_task T { title := none, description := some "" } B t true
          db).response = .ok r ∧ r.description = some "") := by
  constructor
  · exact ⟨by decide, by simp [update_task, gut_owned _ _ _ _ _ hf hb]⟩
  · intro hne hstrip hlen
    constructor
    · simp [validateTaskUpdate, pyStrip, hne, hstrip]
      omega
    · simp [update_task, gut_owned _ _ _ _ _ hf hb]

/-- Witness for C10 (amended): on a task whose description is `"keep"`, an
empty-string description leaves it at `"keep"`, a whitespace-only one clears
it to `""`. -/
theorem update_description_empty_vs_whitespace_witness :
    (∃ r, (update_task 1 { title := none, description := none } "u1" 5 true
        [{ id := 1, user_id := "u1", title := "T", description := some "keep",
           completed := false, created_at := 0, updated_at := 0 }]).response
      = .ok r ∧ r.description = some "keep") ∧
    validateTaskUpdate none (some " ") none
      = some { title := none, description := some "" } := by
  obtain ⟨⟨-, r, h1, h2⟩, h3⟩ :=
    update_description_empty_vs_whitespace
      [{ id := 1, user_id := "u1", title := "T", description := some "keep",
         completed := false, created_at := 0, updated_at := 0 }] 1 "u1" 5
      { id := 1, user_id := "u1", title := "T", description := some "keep",
        completed := false, created_at := 0, updated_at := 0 } " " rfl rfl
  exact ⟨⟨r, h1, h2⟩, (h3 (by decide) (by decide) (by decide)).1⟩

/-- C5: a signup with a fresh email succeeds and appends exactly one user
row; any subsequent signup with the same email fails 400
`EMAIL_ALREADY_EXISTS` and leaves the store unchanged (no overwrite); and
when two signups with the same email race — their existence checks and
constrained inserts interleaving in any of the possible orders — exactly one
of them succeeds. -/
theorem signup_unique_email (req : SignupRequest) (newId : String) (t : Nat)
    (secret : String) (db : List User) (u1 u2 : User) (sched : List Bool) :
    (findUserByEmail db req.email = none →
      (signup req newId t secret db).1.isOk = true ∧
      ∃ new_user, (signup req newId t secret db).2 = db ++ [new_user] ∧
        new_user.email = req.email ∧ new_user.id = newId) ∧
    (∀ w, findUserByEmail db req.email = some w →
      signup req newId t secret db = (.error emailExistsError, db) ∧
      emailExistsError.status_code = 400) ∧
    (u1.email = req.email → u2.email = req.email →
      findUserByEmail db req.email = none → sched ∈ raceSchedules →
      Bool.xor (succeeded (raceOutcome u1 u2 sched db).p1)
        (succeeded (raceOutcome u1 u2 sched db).p2) = true) := by
  refine ⟨?_, ?_, ?_⟩
  · intro h
    have hany := (findUserByEmail_eq_none_iff db req.email).mp h
    refine ⟨?_, { id := newId, email := req.email,
                  password_hash := hash_password req.password,
                  name := req.name, email_verified := false,
                  created_at := t }, ?_, rfl, rfl⟩
    · simp [signup, h, insertUserUnique, hany, Except.isOk, Except.toBool]
    · simp [signup, h, insertUserUnique, hany]
  · intro w hw
    exact ⟨by simp [signup, hw], rfl⟩
  · intro h1 h2 hfresh hsched
    have hany := (findUserByEmail_eq_none_iff db req.email).mp hfresh
    have f1 : (findUserByEmail db u1.email).isSome = false := by
      rw [h1, hfresh]; rfl
    have f2 : (findUserByEmail db u2.email).isSome = false := by
      rw [h2, hfresh]; rfl
    have i1 : insertUserUnique db u1 = .ok (db ++ [u1]) := by
      simp [insertUserUnique, h1, hany]
    have i2 : insertUserUnique db u2 = .ok (db ++ [u2]) := by
      simp [insertUserUnique, h2, hany]
    have c21 : (findUserByEmail (db ++ [u1]) u2.email).isSome = true := by
      rw [h2, findUserByEmail_append, hfresh]
      simp [findUserByEmail, List.find?, h1]
    have c12 : (findUserByEmail (db ++ [u2]) u1.email).isSome = true := by
      rw [h1, findUserByEmail_append, hfresh]
      simp [findUserByEmail, List.find?, h2]
    have i21 : insertUserUnique (db ++ [u1]) u2 = .error () := by
      simp [insertUserUnique, List.any_append, h1, h2]
    have i12 : insertUserUnique (db ++ [u2]) u1 = .error () := by
      simp [insertUserUnique, List.any_append, h1, h2]
    simp only [raceSchedules, List.mem_cons, List.not_mem_nil, or_false]
      at hsched
    rcases hsched with rfl | rfl | rfl | rfl | rfl | rfl <;>
      simp [raceOutcome, runRace, stepSignup, succeeded, f1, f2, i1, i2,
        c21, c12, i21, i12]

/-- Witness for C5 at concrete inputs: fresh signup succeeds, duplicate
signup fails with 400, and in a concrete interleaving of two racing signups
exactly one succeeds. -/
theorem signup_unique_email_witness :
    (signup { email := "a@x.com", password := "password123", name := none }
        "id1" 0 "s" []).1.isOk = true ∧
    (signup { email := "a@x.com", password := "password123", name := none }
        "id2" 1 "s"
        [{ id := "id1", email := "a@x.com", password_hash := "h",
           name := none, email_verified := false, created_at := 0 }]).1
      = .error emailExistsError ∧
    Bool.xor
      (succeeded (raceOutcome
        { id := "id1", email := "a@x.com", password_hash := "h1",
          name := none, email_verified := false, created_at := 0 }
        { id := "id2", email := "a@x.com", password_hash := "h2",
          name := none, email_verified := false, created_at := 0 }
        [true, false, true, false] []).p1)
      (succeeded (raceOutcome
        { id := "id1", email := "a@x.com", password_hash := "h1",
          name := none, email_verified := false, created_at := 0 }
        { id := "id2", email := "a@x.com", password_hash := "h2",
          name := none, email_verified := false, created_at := 0 }
        [true, false, true, false] []).p2) = true := by
  refine ⟨?_, ?_, ?_⟩
  · exact ((signup_unique_email
      { email := "a@x.com", password := "password123", name := none }
      "id1" 0 "s" []
      { id := "x", email := "e", password_hash := "h", name := none,
        email_verified := false, created_at := 0 }
      { id := "y", email := "e", password_hash := "h", name := none,
        email_verified := false, created_at := 0 } []).1 rfl).1
  · exact congrArg Prod.fst ((signup_unique_email
      { email := "a@x.com", password := "password123", name := none }
      "id2" 1 "s"
      [{ id := "id1", email := "a@x.com", password_hash := "h",
         name := none, email_verified := false, created_at := 0 }]
      { id := "x", email := "e", password_hash := "h", name := none,
        email_verified := false, created_at := 0 }
      { id := "y", email := "e", password_hash := "h", name := none,
        email_verified := false, created_at := 0 } []).2.1
      { id := "id1", email := "a@x.com", password_hash := "h",
        name := none, email_verified := false, created_at := 0 } rfl).1
  · exact (signup_unique_email
      { email := "a@x.com", password := "password123", name := none }
      "id0" 0 "s" []
      { id := "id1", email := "a@x.com", password_hash := "h1",
        name := none, email_verified := false, created_at := 0 }
      { id := "id2", email := "a@x.com", password_hash := "h2",
        name := none, email_verified := false, created_at := 0 }
      [true, false, true, false]).2.2 rfl rfl rfl (by decide)

end TodoApp
